import Mathlib

/-!
Verification of the reliability layer of the Async university-administration
repository: the thread-based task queue (`app/core/thread_queue_sync.py`)
and the smart paginator (`app/core/pagination_system_sync.py`).

Timestamps are modelled as integers (seconds).  Opaque JSON payloads are
modelled as association lists of string pairs.  The SQLAlchemy ORM tables
are modelled as Lean lists of records; a commit is modelled as replacing
the mutated row in the list.
-/

namespace Async

/-- Task status, `app/models`: one of pending, processing, completed,
failed, cancelled. -/
inductive Status
  | pending
  | processing
  | completed
  | failed
  | cancelled
deriving DecidableEq, Repr

/-- Opaque JSON-like payload, modelled as an association list. -/
abbrev Payload := List (String × String)

/-- Python dict assignment `d[k] = v`: drop any existing binding of `k`
and add the new one. -/
def Payload.setKey (p : Payload) (k v : String) : Payload :=
  p.filter (fun kv => kv.1 ≠ k) ++ [(k, v)]

/-- Python truthiness of an optional dict: `None` and `{}` are falsy. -/
def truthy : Option Payload → Bool
  | none => false
  | some p => !p.isEmpty

/-- The `Task` record of the queue store (`tasks` table). -/
structure Task where
  task_id : String
  task_type : String
  status : Status
  priority : Int
  retry_count : Nat
  max_retries : Nat
  data : Payload
  rollback_data : Option Payload
  error_message : Option String
  locked_by : Option String
  locked_at : Option Int
  scheduled_at : Int
  started_at : Option Int
  completed_at : Option Int
  progress : Nat
  needs_rollback : Bool
deriving DecidableEq, Repr

/-- `SyncThreadQueueManager._lock_timeout = timedelta(minutes=5)`,
in seconds. -/
def lockTimeout : Int := 300

/-- Modelled from the spec: `Task.can_retry` lives in the missing
`app/models/task.py`; per the spec a task can retry exactly while
`retry_count < max_retries`. -/
def Task.can_retry (t : Task) : Bool :=
  t.retry_count < t.max_retries

/-- Modelled from the spec: `Task.unlock` lives in the missing
`app/models/task.py`; it clears the soft lock fields `locked_by` and
`locked_at`. -/
def Task.unlock (t : Task) : Task :=
  { t with locked_by := none, locked_at := none }

/-- A freshly created task as built by `add_task`: status `pending`,
`scheduled_at = now`, rollback data stored only when truthy, all other
fields at their model defaults. -/
def mkTask (task_id task_type : String) (data : Payload) (priority : Int)
    (max_retries : Nat) (rollback_data : Option Payload) (now : Int) : Task :=
  { task_id := task_id
    task_type := task_type
    status := Status.pending
    priority := priority
    retry_count := 0
    max_retries := max_retries
    data := data
    rollback_data := if truthy rollback_data then rollback_data else none
    error_message := none
    locked_by := none
    locked_at := none
    scheduled_at := now
    started_at := none
    completed_at := none
    progress := 0
    needs_rollback := false }

/-- `add_task`: insert a fresh pending task into the store. -/
def add_task (db : List Task) (task_id task_type : String) (data : Payload)
    (priority : Int) (max_retries : Nat) (rollback_data : Option Payload)
    (now : Int) : List Task :=
  db ++ [mkTask task_id task_type data priority max_retries rollback_data now]

/-- The SQL condition `locked_at < lock_expiry` (false when `locked_at`
is NULL), with `lock_expiry = now - lockTimeout`. -/
def lockExpired (now : Int) (t : Task) : Bool :=
  match t.locked_at with
  | none => false
  | some la => la < now - lockTimeout

/-- The claim filter of `_get_and_lock_task`:
`status == "pending" AND (locked_by IS NULL OR locked_at < lock_expiry)`. -/
def claimFilter (now : Int) (t : Task) : Bool :=
  decide (t.status = Status.pending) &&
    (t.locked_by.isNone || lockExpired now t)

/-- `ORDER BY priority ASC, scheduled_at ASC`: strict lexicographic
comparison used to pick the first row. -/
def claimBefore (a b : Task) : Bool :=
  decide (a.priority < b.priority) ||
    (decide (a.priority = b.priority) && decide (a.scheduled_at < b.scheduled_at))

/-- First row of the ordered result set: the minimum under `claimBefore`,
keeping the earliest row of the table on ties. -/
def selectMin : List Task → Option Task
  | [] => none
  | t :: ts =>
    match selectMin ts with
    | none => some t
    | some b => if claimBefore b t then some b else some t

/-- The locking update of `_get_and_lock_task`: `status=processing`,
`locked_by=worker`, `locked_at=now`, `started_at=now`. -/
def lockTask (t : Task) (worker : String) (now : Int) : Task :=
  { t with
    status := Status.processing
    locked_by := some worker
    locked_at := some now
    started_at := some now }

/-- `_get_and_lock_task`: atomically select the first eligible task in
(priority, scheduled_at) order and lock it; return the locked task and
the updated store, or `none` and the unchanged store. -/
def get_and_lock_task (db : List Task) (worker : String) (now : Int) :
    Option Task × List Task :=
  match selectMin (db.filter (claimFilter now)) with
  | none => (none, db)
  | some t =>
    let t' := lockTask t worker now
    (some t', db.map (fun u => if u.task_id = t.task_id then t' else u))

/-- The capped exponential backoff of `_handle_task_failure`:
`min(30 * 2 ** retry_count, 300)` seconds. -/
def backoffDelay (r : Nat) : Nat :=
  min (30 * 2 ^ r) 300

/-- Result of `_handle_task_failure`: the updated task row together with
the list of tasks newly enqueued by `_schedule_rollback`. -/
structure FailureResult where
  task : Task
  newTasks : List Task
deriving DecidableEq, Repr

/-- `_handle_task_failure`: record the error and clear the lock; while
`can_retry`, increment `retry_count`, go back to `pending` and reschedule
with capped exponential backoff; otherwise mark `failed`, set
`completed_at` and `needs_rollback`, and when a rollback payload is
stored, enqueue one `rollback_operation` task at priority 1 via
`_schedule_rollback` / `add_task` (`rollbackId` stands for the fresh
uuid4 of that task). -/
def handle_task_failure (t : Task) (errorMessage : String) (now : Int)
    (rollbackId : String) : FailureResult :=
  let t0 := { t with error_message := some errorMessage }
  let t1 := t0.unlock
  if t1.can_retry then
    let rc := t1.retry_count + 1
    { task :=
        { t1 with
          status := Status.pending
          retry_count := rc
          started_at := none
          scheduled_at := now + (backoffDelay rc : Int) }
      newTasks := [] }
  else
    let t2 :=
      { t1 with
        status := Status.failed
        completed_at := some now
        needs_rollback := true }
    { task := t2
      newTasks :=
        if truthy t2.rollback_data then
          [mkTask rollbackId "rollback_operation"
            (Payload.setKey (t2.rollback_data.getD []) "original_task_id"
              t2.task_id)
            1 3 none now]
        else [] }

/-- One failed execution attempt as seen by the failure handler: the task
is claimed (`lockTask`) and its processor fails, so `handle_task_failure`
runs.  Iterated with fuel `max_retries + 1 - retry_count`, which is
exactly the number of attempts a task that always fails can make before
reaching the terminal `failed` status. -/
def alwaysFailAux : Nat → Task → String → String → Int → String → Nat × Task
  | 0, t, _, _, _, _ => (0, t)
  | fuel + 1, t, worker, e, now, rid =>
    let r := handle_task_failure (lockTask t worker now) e now rid
    if r.task.status = Status.failed then (1, r.task)
    else
      let p := alwaysFailAux fuel r.task worker e now rid
      (p.1 + 1, p.2)

/-- Run a task whose processor always fails to completion, counting the
execution attempts. -/
def alwaysFailRun (t : Task) (worker e : String) (now : Int) (rid : String) :
    Nat × Task :=
  alwaysFailAux (t.max_retries + 1 - t.retry_count) t worker e now rid

/-! ## Smart paginator (`app/core/pagination_system_sync.py`) -/

/-- A row returned by a caller-supplied query function.  `id` is `some`
exactly when the item exposes an `id` (dict key or object attribute);
`tag` stands for the rest of the row. -/
structure Item where
  id : Option Nat
  tag : String
deriving DecidableEq, Repr

/-- Query parameters: an association list, like `Payload`. -/
abbrev Params := List (String × String)

/-- The pagination-control keys excluded from the query fingerprint. -/
def paginationKeys : List String :=
  ["page", "limit", "session_id", "page_size"]

/-- Query fingerprint.  `_generate_query_hash` sorts the non-pagination
parameters and hashes `endpoint` plus their JSON dump with SHA-256; the
hash is modelled by the normalized pair itself (SHA-256 is treated as
injective). -/
def generate_query_hash (endpoint : String) (params : Params) :
    String × Params :=
  (endpoint,
    List.insertionSort (fun a b => a.1 ≤ b.1)
      (params.filter (fun kv => !paginationKeys.contains kv.1)))

/-- The `PaginationState` record (`pagination_states` table). -/
structure PaginationState where
  session_id : String
  endpoint : String
  query_hash : String × Params
  current_page : Nat
  items_per_page : Nat
  total_items : Nat
  returned_items : List Nat
  query_params : Params
  is_active : Bool
  last_accessed : Int
  expires_at : Int
deriving DecidableEq, Repr

/-- Modelled from the spec: `PaginationState.is_expired` lives in the
missing `app/models/pagination_state.py`; a session is expired once
`expires_at` lies in the past. -/
def PaginationState.is_expired (st : PaginationState) (now : Int) : Bool :=
  st.expires_at < now

/-- `SyncSmartPaginator` defaults: `session_ttl_hours = 24` in seconds,
`default_page_size = 20`. -/
def sessionTtl : Int := 24 * 3600

def defaultPageSize : Nat := 20

/-- The lookup filter of `get_or_create_session`: same `session_id`,
`endpoint` and `query_hash`, and `is_active == True`. -/
def sessionMatch (sid ep : String) (qh : String × Params)
    (st : PaginationState) : Bool :=
  decide (st.session_id = sid) && decide (st.endpoint = ep) &&
    decide (st.query_hash = qh) && st.is_active

/-- A fresh `PaginationState` as created by `get_or_create_session`:
page 0, no items returned yet, active, `expires_at = now + session_ttl`.
The column defaults live in the missing `app/models/pagination_state.py`
and are modelled from the spec ("created on first page request", a new
session "starts ... at page 1" after its first fetch). -/
def newState (sid ep : String) (qh : String × Params) (params : Params)
    (pageSize : Nat) (now : Int) : PaginationState :=
  { session_id := sid
    endpoint := ep
    query_hash := qh
    current_page := 0
    items_per_page := pageSize
    total_items := 0
    returned_items := []
    query_params := params
    is_active := true
    last_accessed := now
    expires_at := now + sessionTtl }

/-- Replace the first occurrence of `old` in the table by `new`
(the ORM commit of a mutated row). -/
def replaceFirst (db : List PaginationState) (old new : PaginationState) :
    List PaginationState :=
  match db with
  | [] => []
  | st :: rest =>
    if st = old then new :: rest else st :: replaceFirst rest old new

/-- `get_or_create_session`: find the first active session for the
`(session_id, endpoint, query_hash)` triple; if it is unexpired, refresh
`last_accessed`; otherwise deactivate it (when present) and create a
fresh session.  Returns the session together with the updated table. -/
def get_or_create_session (db : List PaginationState) (sid ep : String)
    (params : Params) (pageSize : Option Nat) (now : Int) :
    PaginationState × List PaginationState :=
  let ps := pageSize.getD defaultPageSize
  let qh := generate_query_hash ep params
  match db.find? (sessionMatch sid ep qh) with
  | some st =>
    if st.is_expired now then
      let stale := { st with is_active := false }
      let fresh := newState sid ep qh params ps now
      (fresh, replaceFirst db st stale ++ [fresh])
    else
      let st' := { st with last_accessed := now }
      (st', replaceFirst db st st')
  | none =>
    let fresh := newState sid ep qh params ps now
    (fresh, db ++ [fresh])

/-- A caller-supplied `query_function(db, offset, limit, **query_params)`;
it may raise, modelled by `Except`. -/
abbrev QueryFn := Nat → Nat → Params → Except String (List Item)

/-- Id extraction of `get_next_page`: keep the `id` of exactly those
items that expose one. -/
def extractIds (results : List Item) : List Nat :=
  results.filterMap (fun it => it.id)

/-- `_get_total_count`: probe with `offset=0, limit=1000`; below the
ceiling the sample is the total, at the ceiling pad by 100; any error is
caught and yields the default 100. -/
def get_total_count (queryFn : QueryFn) (params : Params) : Nat :=
  match queryFn 0 1000 params with
  | Except.ok rs => if rs.length < 1000 then rs.length else rs.length + 100
  | Except.error _ => 100

/-- The metadata dictionary returned by `get_next_page`. -/
structure Metadata where
  session_id : String
  current_page : Nat
  items_per_page : Nat
  items_in_page : Nat
  total_items_returned : Nat
  total_items_available : Nat
  has_more_pages : Bool
  progress_percentage : ℚ
  error : Option String
deriving DecidableEq, Repr

/-- The happy-path block of `get_next_page` (the body of its outer
`try`): look up or create the session, fetch at the stored offset, append
the extracted ids, bump the page counter, estimate the total on first
fetch, commit, and build the metadata.  The only fallible step is the
caller's query function; its error propagates. -/
def get_next_page_core (db : List PaginationState) (sid ep : String)
    (queryFn : QueryFn) (params : Params) (pageSize : Option Nat)
    (now : Int) :
    Except String ((List Item × Metadata) × List PaginationState) :=
  let r := get_or_create_session db sid ep params pageSize now
  let st := r.1
  let db1 := r.2
  let offset := st.returned_items.length
  match queryFn offset st.items_per_page params with
  | Except.error e => Except.error e
  | Except.ok results =>
    let newIds := extractIds results
    let st1 :=
      { st with
        returned_items := st.returned_items ++ newIds
        current_page := st.current_page + 1
        last_accessed := now }
    let st2 :=
      if st1.total_items = 0 then
        { st1 with total_items := get_total_count queryFn params }
      else st1
    let db2 := replaceFirst db1 st st2
    let totalReturned := st2.returned_items.length
    let hasMore := decide (results.length = st2.items_per_page)
    let md : Metadata :=
      { session_id := sid
        current_page := st2.current_page
        items_per_page := st2.items_per_page
        items_in_page := results.length
        total_items_returned := totalReturned
        total_items_available := st2.total_items
        has_more_pages := hasMore
        progress_percentage :=
          if 0 < st2.total_items then
            (totalReturned : ℚ) / (st2.total_items : ℚ) * 100
          else 0
        error := none }
    Except.ok ((results, md), db2)

/-- The fallback limit `page_size or 20` (Python truthiness: `None` and
`0` both fall back to 20). -/
def fallbackLimit : Option Nat → Nat
  | none => 20
  | some n => if n = 0 then 20 else n

/-- The degraded metadata of the single-fetch fallback. -/
def fallbackMetadata (sid : String) (rs : List Item) : Metadata :=
  { session_id := sid
    current_page := 1
    items_per_page := rs.length
    items_in_page := rs.length
    total_items_returned := rs.length
    total_items_available := rs.length
    has_more_pages := false
    progress_percentage := 100
    error := some "Paginacion inteligente fallo, usando fallback" }

/-- The metadata of the last-resort empty answer. -/
def criticalMetadata (sid : String) (e : String) : Metadata :=
  { session_id := sid
    current_page := 0
    items_per_page := 0
    items_in_page := 0
    total_items_returned := 0
    total_items_available := 0
    has_more_pages := false
    progress_percentage := 0
    error := some ("Error critico: " ++ e) }

/-- `get_next_page`: run the paginated path; on any error fall back to a
single fetch at `offset=0, limit=page_size or 20` with degraded metadata,
and if even that fails, return an empty list with error metadata.  On the
fallback paths the paginated table keeps the state committed by
`get_or_create_session` (the later row mutations were not committed). -/
def get_next_page (db : List PaginationState) (sid ep : String)
    (queryFn : QueryFn) (params : Params) (pageSize : Option Nat)
    (now : Int) : (List Item × Metadata) × List PaginationState :=
  match get_next_page_core db sid ep queryFn params pageSize now with
  | Except.ok out => out
  | Except.error e =>
    let db1 := (get_or_create_session db sid ep params pageSize now).2
    match queryFn 0 (fallbackLimit pageSize) params with
    | Except.ok rs => ((rs, fallbackMetadata sid rs), db1)
    | Except.error _ => (([], criticalMetadata sid e), db1)

/-- `reset_session`: deactivate every active session of `session_id`
(optionally restricted to one endpoint); return whether any was
deactivated.  Rows are never deleted. -/
def resetMatch (sid : String) (ep : Option String)
    (st : PaginationState) : Bool :=
  decide (st.session_id = sid) && st.is_active &&
    (match ep with
     | none => true
     | some e => decide (st.endpoint = e))

def reset_session (db : List PaginationState) (sid : String)
    (ep : Option String) (now : Int) : Bool × List PaginationState :=
  let db' := db.map (fun st =>
    if resetMatch sid ep st then
      { st with is_active := false, last_accessed := now }
    else st)
  (0 < (db.filter (resetMatch sid ep)).length, db')

/-! ## Theorems about the task queue -/

/-- Retrying a failure increments `retry_count` and reschedules with the
capped backoff; the retry branch is taken exactly while `can_retry`. -/
theorem handle_failure_retry (t : Task) (e : String) (now : Int)
    (rid : String) (h : t.retry_count < t.max_retries) :
    (handle_task_failure t e now rid).task.retry_count = t.retry_count + 1 ∧
    (handle_task_failure t e now rid).task.status = Status.pending ∧
    (handle_task_failure t e now rid).task.scheduled_at =
      now + (backoffDelay (t.retry_count + 1) : Int) ∧
    (handle_task_failure t e now rid).newTasks = [] := by
  simp [handle_task_failure, Task.can_retry, Task.unlock, h]

/-- A terminal failure keeps `retry_count` and marks the task failed. -/
theorem handle_failure_terminal (t : Task) (e : String) (now : Int)
    (rid : String) (h : t.max_retries ≤ t.retry_count) :
    (handle_task_failure t e now rid).task.status = Status.failed ∧
    (handle_task_failure t e now rid).task.retry_count = t.retry_count ∧
    (handle_task_failure t e now rid).task.needs_rollback = true ∧
    (handle_task_failure t e now rid).task.completed_at = some now := by
  have h' : ¬ (t.retry_count < t.max_retries) := by omega
  simp [handle_task_failure, Task.can_retry, Task.unlock, h']

/-- C2: a freshly enqueued task with `max_retries = 2` whose processor
always fails makes exactly 3 execution attempts (1 initial + 2 retries)
and ends with `status = failed`; `retry_count` never exceeds
`max_retries`; once the retries are exhausted the failure handler marks
the task `failed`, and the claim filter never selects a `failed` task, so
the failure-handling path never runs on (and never moves) a failed
task. -/
theorem claim2_retry_bound :
    (∀ (id ty : String) (data : Payload) (p : Int) (rb : Option Payload)
        (now now' : Int) (w e rid : String),
      (alwaysFailRun (mkTask id ty data p 2 rb now) w e now' rid).1 = 3 ∧
      (alwaysFailRun (mkTask id ty data p 2 rb now) w e now' rid).2.status =
        Status.failed) ∧
    (∀ (t : Task) (e : String) (now : Int) (rid : String),
      t.retry_count ≤ t.max_retries →
      (handle_task_failure t e now rid).task.retry_count ≤ t.max_retries) ∧
    (∀ (t : Task) (e : String) (now : Int) (rid : String),
      t.max_retries ≤ t.retry_count →
      (handle_task_failure t e now rid).task.status = Status.failed) ∧
    (∀ (now : Int) (t : Task),
      claimFilter now t = true → t.status = Status.pending) := by
  refine ⟨?_, ?_, ?_, ?_⟩
  · intro id ty data p rb now now' w e rid
    simp [alwaysFailRun, alwaysFailAux, handle_task_failure, mkTask,
      lockTask, Task.unlock, Task.can_retry, backoffDelay]
  · intro t e now rid
    intro h
    by_cases hc : t.retry_count < t.max_retries
    · simp [handle_task_failure, Task.can_retry, Task.unlock, hc]
      omega
    · simp [handle_task_failure, Task.can_retry, Task.unlock, hc]
      exact h
  · intro t e now rid h
    exact (handle_failure_terminal t e now rid h).1
  · intro now t h
    simp only [claimFilter, Bool.and_eq_true, decide_eq_true_eq] at h
    exact h.1

/-- Witness for C2 at a concrete task: `max_retries = 2`, empty payload,
priority 5, enqueued at time 0 and always failing. -/
theorem claim2_retry_bound_witness :
    ((alwaysFailRun (mkTask "t" "x" [] 5 2 none 0) "w" "boom" 100 "r").1
        = 3 ∧
      (alwaysFailRun (mkTask "t" "x" [] 5 2 none 0) "w" "boom" 100 "r").2.status
        = Status.failed) ∧
    (handle_task_failure (mkTask "t" "x" [] 5 2 none 0) "boom" 100
        "r").task.retry_count ≤ 2 ∧
    (handle_task_failure
        { mkTask "t" "x" [] 5 2 none 0 with retry_count := 2 } "boom" 100
        "r").task.status = Status.failed ∧
    (mkTask "t" "x" [] 5 2 none 0).status = Status.pending :=
  ⟨claim2_retry_bound.1 "t" "x" [] 5 none 0 100 "w" "boom" "r",
   claim2_retry_bound.2.1 (mkTask "t" "x" [] 5 2 none 0) "boom" 100 "r"
     (by decide),
   claim2_retry_bound.2.2.1
     { mkTask "t" "x" [] 5 2 none 0 with retry_count := 2 } "boom" 100 "r"
     (by decide),
   claim2_retry_bound.2.2.2 0 (mkTask "t" "x" [] 5 2 none 0) (by decide)⟩

/-- C3: on a non-terminal failure the task is rescheduled at
`now + min(30 * 2 ** retry_count, 300)` seconds computed after the
increment of `retry_count`; the delay is non-decreasing in `retry_count`
and never exceeds 300 seconds. -/
theorem claim3_backoff :
    (∀ (t : Task) (e : String) (now : Int) (rid : String),
      t.retry_count < t.max_retries →
      (handle_task_failure t e now rid).task.retry_count =
          t.retry_count + 1 ∧
        (handle_task_failure t e now rid).task.scheduled_at =
          now + (backoffDelay (t.retry_count + 1) : Int)) ∧
    (∀ r s : Nat, r ≤ s → backoffDelay r ≤ backoffDelay s) ∧
    (∀ r : Nat, backoffDelay r ≤ 300) := by
  refine ⟨?_, ?_, ?_⟩
  · intro t e now rid h
    exact ⟨(handle_failure_retry t e now rid h).1,
      (handle_failure_retry t e now rid h).2.2.1⟩
  · intro r s h
    have hp : 30 * 2 ^ r ≤ 30 * 2 ^ s :=
      Nat.mul_le_mul_left 30 (Nat.pow_le_pow_right (by norm_num) h)
    exact min_le_min hp le_rfl
  · intro r
    exact min_le_right _ _

/-- Witness for C3 at a concrete failing task and concrete delays. -/
theorem claim3_backoff_witness :
    ((handle_task_failure (mkTask "t" "x" [] 5 2 none 0) "boom" 100
          "r").task.retry_count = 0 + 1 ∧
      (handle_task_failure (mkTask "t" "x" [] 5 2 none 0) "boom" 100
          "r").task.scheduled_at = 100 + (backoffDelay (0 + 1) : Int)) ∧
    backoffDelay 1 ≤ backoffDelay 4 ∧
    backoffDelay 7 ≤ 300 :=
  ⟨claim3_backoff.1 (mkTask "t" "x" [] 5 2 none 0) "boom" 100 "r"
      (by decide),
   claim3_backoff.2.1 1 4 (by decide),
   claim3_backoff.2.2 7⟩

/-- C4: a task with a stored rollback payload that exhausts its retries
makes the failure handler enqueue exactly one `rollback_operation` task,
at priority 1, whose payload is the stored rollback data extended with
the original task's id under the key `original_task_id`. -/
theorem claim4_rollback_trigger :
    ∀ (t : Task) (e : String) (now : Int) (rid : String),
      t.max_retries ≤ t.retry_count →
      truthy t.rollback_data = true →
      (handle_task_failure t e now rid).newTasks.length = 1 ∧
      ∀ nt ∈ (handle_task_failure t e now rid).newTasks,
        nt.task_type = "rollback_operation" ∧
        nt.priority = 1 ∧
        nt.status = Status.pending ∧
        nt.data = Payload.setKey (t.rollback_data.getD []) "original_task_id"
          t.task_id ∧
        ("original_task_id", t.task_id) ∈ nt.data := by
  intro t e now rid h hrb
  have h' : ¬ (t.retry_count < t.max_retries) := by omega
  refine ⟨?_, ?_⟩
  · simp [handle_task_failure, Task.can_retry, Task.unlock, h', hrb]
  · intro nt hnt
    simp [handle_task_failure, Task.can_retry, Task.unlock, h', hrb] at hnt
    subst hnt
    refine ⟨rfl, rfl, rfl, rfl, ?_⟩
    simp [mkTask, Payload.setKey]

/-- Witness for C4 at a concrete exhausted task carrying rollback
data. -/
theorem claim4_rollback_trigger_witness :
    (handle_task_failure
        { mkTask "t" "x" [] 5 2 (some [("table", "alumnos")]) 0 with
          retry_count := 2 } "boom" 100 "rb").newTasks.length = 1 ∧
    ∀ nt ∈ (handle_task_failure
        { mkTask "t" "x" [] 5 2 (some [("table", "alumnos")]) 0 with
          retry_count := 2 } "boom" 100 "rb").newTasks,
      nt.task_type = "rollback_operation" ∧
      nt.priority = 1 ∧
      nt.status = Status.pending ∧
      nt.data = Payload.setKey
        (({ mkTask "t" "x" [] 5 2 (some [("table", "alumnos")]) 0 with
              retry_count := 2 } : Task).rollback_data.getD [])
        "original_task_id"
        ({ mkTask "t" "x" [] 5 2 (some [("table", "alumnos")]) 0 with
              retry_count := 2 } : Task).task_id ∧
      ("original_task_id",
        ({ mkTask "t" "x" [] 5 2 (some [("table", "alumnos")]) 0 with
              retry_count := 2 } : Task).task_id) ∈ nt.data :=
  claim4_rollback_trigger
    { mkTask "t" "x" [] 5 2 (some [("table", "alumnos")]) 0 with
      retry_count := 2 } "boom" 100 "rb" (by decide) (by decide)

/-- C5 counterexample: a task without any rollback payload that exhausts
its retries still gets `needs_rollback = true` (the handler sets the flag
unconditionally on permanent failure), refuting "a permanently failed
task without a rollback payload keeps needs_rollback false". -/
theorem claim5_counterexample :
    truthy ({ mkTask "t0" "x" [] 5 2 none 0 with retry_count := 2, status := Status.processing } : Task).rollback_data = false ∧
    ({ mkTask "t0" "x" [] 5 2 none 0 with retry_count := 2, status := Status.processing } : Task).can_retry = false ∧
    (handle_task_failure { mkTask "t0" "x" [] 5 2 none 0 with retry_count := 2, status := Status.processing } "err" 7 "rb").task.status =
      Status.failed ∧
    (handle_task_failure { mkTask "t0" "x" [] 5 2 none 0 with retry_count := 2, status := Status.processing } "err" 7 "rb").task.needs_rollback =
      true := by
  refine ⟨rfl, rfl, ?_, ?_⟩ <;>
    simp [handle_task_failure, mkTask, Task.can_retry, Task.unlock]

/-- C5 amended: on every permanent failure `needs_rollback` is set to
true unconditionally, whether or not the task carries a rollback payload;
what depends on the payload is the enqueueing of the rollback task, which
happens exactly when a rollback payload is stored. -/
theorem claim5_needs_rollback :
    ∀ (t : Task) (e : String) (now : Int) (rid : String),
      t.max_retries ≤ t.retry_count →
      (handle_task_failure t e now rid).task.needs_rollback = true ∧
      (handle_task_failure t e now rid).task.status = Status.failed ∧
      ((handle_task_failure t e now rid).newTasks = [] ↔
        truthy t.rollback_data = false) := by
  intro t e now rid h
  have h' : ¬ (t.retry_count < t.max_retries) := by omega
  refine ⟨(handle_failure_terminal t e now rid h).2.2.1,
    (handle_failure_terminal t e now rid h).1, ?_⟩
  by_cases hrb : truthy t.rollback_data = true
  · simp [handle_task_failure, Task.can_retry, Task.unlock, h', hrb]
  · simp at hrb
    simp [handle_task_failure, Task.can_retry, Task.unlock, h', hrb]

/-- Witness for the amended C5 at a concrete exhausted task without
rollback payload. -/
theorem claim5_needs_rollback_witness :
    (handle_task_failure
        { mkTask "t0" "x" [] 5 2 none 0 with retry_count := 2 } "err" 7
        "rb").task.needs_rollback = true ∧
    (handle_task_failure
        { mkTask "t0" "x" [] 5 2 none 0 with retry_count := 2 } "err" 7
        "rb").task.status = Status.failed ∧
    ((handle_task_failure
        { mkTask "t0" "x" [] 5 2 none 0 with retry_count := 2 } "err" 7
        "rb").newTasks = [] ↔
      truthy ({ mkTask "t0" "x" [] 5 2 none 0 with
          retry_count := 2 } : Task).rollback_data = false) :=
  claim5_needs_rollback
    { mkTask "t0" "x" [] 5 2 none 0 with retry_count := 2 } "err" 7 "rb"
    (by decide)

/-- C6: every task enqueued by the failure handler's rollback scheduling
is stored without a rollback payload; a task without a truthy rollback
payload never enqueues anything from the failure path, and the failure
handler preserves the stored rollback payload; hence a rollback task that
itself fails terminally enqueues no further rollback, and chains have
depth at most one. -/
theorem claim6_no_rollback_chains :
    ∀ (t : Task) (e : String) (now : Int) (rid : String),
      (∀ nt ∈ (handle_task_failure t e now rid).newTasks,
        nt.rollback_data = none ∧ nt.task_type = "rollback_operation") ∧
      (truthy t.rollback_data = false →
        (handle_task_failure t e now rid).newTasks = []) ∧
      (handle_task_failure t e now rid).task.rollback_data =
        t.rollback_data ∧
      (∀ nt ∈ (handle_task_failure t e now rid).newTasks,
        ∀ (w e' rid' : String) (now' now'' : Int),
          (handle_task_failure (lockTask nt w now') e' now''
            rid').newTasks = []) := by
  intro t e now rid
  have hmem : ∀ nt ∈ (handle_task_failure t e now rid).newTasks,
      nt.rollback_data = none ∧ nt.task_type = "rollback_operation" := by
    intro nt hnt
    by_cases hc : t.retry_count < t.max_retries
    · simp [handle_task_failure, Task.can_retry, Task.unlock, hc] at hnt
    · by_cases hrb : truthy t.rollback_data = true
      · simp [handle_task_failure, Task.can_retry, Task.unlock, hc,
          hrb] at hnt
        subst hnt
        exact ⟨by simp [mkTask, truthy], rfl⟩
      · simp at hrb
        simp [handle_task_failure, Task.can_retry, Task.unlock, hc,
          hrb] at hnt
  refine ⟨hmem, ?_, ?_, ?_⟩
  · intro hrb
    by_cases hc : t.retry_count < t.max_retries
    · simp [handle_task_failure, Task.can_retry, Task.unlock, hc]
    · simp [handle_task_failure, Task.can_retry, Task.unlock, hc, hrb]
  · by_cases hc : t.retry_count < t.max_retries
    · simp [handle_task_failure, Task.can_retry, Task.unlock, hc]
    · by_cases hrb : truthy t.rollback_data = true
      · simp [handle_task_failure, Task.can_retry, Task.unlock, hc, hrb]
      · simp at hrb
        simp [handle_task_failure, Task.can_retry, Task.unlock, hc, hrb]
  · intro nt hnt w e' rid' now' now''
    have hrb0 : truthy (lockTask nt w now').rollback_data = false := by
      have := (hmem nt hnt).1
      simp [lockTask, this, truthy]
    by_cases hc : (lockTask nt w now').retry_count <
        (lockTask nt w now').max_retries
    · simp [handle_task_failure, Task.can_retry, Task.unlock, hc]
    · simp [handle_task_failure, Task.can_retry, Task.unlock, hc, hrb0]

/-- Witness for C6 at a concrete exhausted task with rollback data,
whose spawned rollback task is checked to spawn nothing further. -/
theorem claim6_no_rollback_chains_witness :
    (∀ nt ∈ (handle_task_failure
        { mkTask "t" "x" [] 5 2 (some [("op", "create")]) 0 with
          retry_count := 2 } "boom" 9 "rb").newTasks,
      nt.rollback_data = none ∧ nt.task_type = "rollback_operation") ∧
    (truthy ({ mkTask "t" "x" [] 5 2 (some [("op", "create")]) 0 with
          retry_count := 2 } : Task).rollback_data = false →
      (handle_task_failure
        { mkTask "t" "x" [] 5 2 (some [("op", "create")]) 0 with
          retry_count := 2 } "boom" 9 "rb").newTasks = []) ∧
    (handle_task_failure
        { mkTask "t" "x" [] 5 2 (some [("op", "create")]) 0 with
          retry_count := 2 } "boom" 9 "rb").task.rollback_data =
      ({ mkTask "t" "x" [] 5 2 (some [("op", "create")]) 0 with
          retry_count := 2 } : Task).rollback_data ∧
    (∀ nt ∈ (handle_task_failure
        { mkTask "t" "x" [] 5 2 (some [("op", "create")]) 0 with
          retry_count := 2 } "boom" 9 "rb").newTasks,
      ∀ (w e' rid' : String) (now' now'' : Int),
        (handle_task_failure (lockTask nt w now') e' now''
          rid').newTasks = []) :=
  claim6_no_rollback_chains
    { mkTask "t" "x" [] 5 2 (some [("op", "create")]) 0 with
      retry_count := 2 } "boom" 9 "rb"

/-- Modelled from the spec's words, for comparison with the code's claim
filter: the spec declares claimable any task that is "either pending, or
processing with a soft lock older than a fixed lock-timeout". -/
def specClaimEligible (now : Int) (t : Task) : Bool :=
  decide (t.status = Status.pending) ||
    (decide (t.status = Status.processing) && lockExpired now t)

theorem claimBefore_irrefl (a : Task) : claimBefore a a = false := by
  simp [claimBefore]

theorem claimBefore_false_trans {a b c : Task}
    (hab : claimBefore a b = false) (hbc : claimBefore b c = false) :
    claimBefore a c = false := by
  simp only [claimBefore, Bool.or_eq_false_iff, Bool.and_eq_false_iff,
    decide_eq_false_iff_not, not_lt] at hab hbc ⊢
  obtain ⟨h1, h2⟩ := hab
  obtain ⟨h3, h4⟩ := hbc
  constructor
  · omega
  · rcases h2 with h2 | h2 <;> rcases h4 with h4 | h4
    · left; omega
    · left; omega
    · left; omega
    · by_cases hpq : a.priority = c.priority
      · right
        omega
      · left
        simpa [decide_eq_false_iff_not] using hpq

theorem claimBefore_asymm {a b : Task} (h : claimBefore a b = true) :
    claimBefore b a = false := by
  simp only [claimBefore, Bool.or_eq_true, Bool.and_eq_true,
    decide_eq_true_eq] at h
  simp only [claimBefore, Bool.or_eq_false_iff, Bool.and_eq_false_iff,
    decide_eq_false_iff_not, not_lt]
  rcases h with h | ⟨h1, h2⟩
  · exact ⟨by omega, Or.inl (by omega)⟩
  · exact ⟨by omega, Or.inr (by omega)⟩

theorem selectMin_eq_none {l : List Task} :
    selectMin l = none ↔ l = [] := by
  cases l with
  | nil => simp [selectMin]
  | cons t ts =>
    simp only [selectMin]
    cases h : selectMin ts with
    | none => simp
    | some b => by_cases hb : claimBefore b t = true <;> simp [hb]

theorem selectMin_mem {l : List Task} {b : Task}
    (h : selectMin l = some b) : b ∈ l := by
  induction l with
  | nil => simp [selectMin] at h
  | cons t ts ih =>
    simp only [selectMin] at h
    cases hs : selectMin ts with
    | none =>
      rw [hs] at h
      simp at h
      simp [h]
    | some b0 =>
      rw [hs] at h
      by_cases hb : claimBefore b0 t = true
      · simp [hb] at h
        subst h
        exact List.mem_cons_of_mem t (ih hs)
      · simp [hb] at h
        simp [h]

theorem selectMin_min {l : List Task} {b : Task}
    (h : selectMin l = some b) :
    ∀ u ∈ l, claimBefore u b = false := by
  induction l generalizing b with
  | nil => simp [selectMin] at h
  | cons t ts ih =>
    intro u hu
    simp only [selectMin] at h
    cases hs : selectMin ts with
    | none =>
      rw [hs] at h
      simp at h
      subst h
      have : ts = [] := selectMin_eq_none.mp hs
      subst this
      simp at hu
      subst hu
      exact claimBefore_irrefl _
    | some b0 =>
      rw [hs] at h
      by_cases hb : claimBefore b0 t = true
      · simp [hb] at h
        subst h
        rcases List.mem_cons.mp hu with hu | hu
        · subst hu
          exact claimBefore_asymm hb
        · exact ih hs u hu
      · simp [hb] at h
        subst h
        rcases List.mem_cons.mp hu with hu | hu
        · subst hu
          exact claimBefore_irrefl _
        · have h1 : claimBefore u b0 = false := ih hs u hu
          have h2 : claimBefore b0 t = false := by
            simpa using hb
          exact claimBefore_false_trans h1 h2

/-- C1 counterexample: a task stuck in `processing` whose soft lock is
far older than the lock-timeout is eligible under the spec's wording but
is not claimed by `_get_and_lock_task`, whose filter requires
`status == "pending"`; the attempt claims nothing and leaves the store
unchanged. -/
theorem claim1_counterexample :
    specClaimEligible 10000 ({ mkTask "t1" "x" [] 5 2 none 0 with status := Status.processing, locked_by := some "w0", locked_at := some 0 } : Task) = true ∧
    claimFilter 10000 ({ mkTask "t1" "x" [] 5 2 none 0 with status := Status.processing, locked_by := some "w0", locked_at := some 0 } : Task) = false ∧
    (get_and_lock_task [{ mkTask "t1" "x" [] 5 2 none 0 with status := Status.processing, locked_by := some "w0", locked_at := some 0 }] "w1" 10000).1 = none ∧
    (get_and_lock_task [{ mkTask "t1" "x" [] 5 2 none 0 with status := Status.processing, locked_by := some "w0", locked_at := some 0 }] "w1" 10000).2 =
      [{ mkTask "t1" "x" [] 5 2 none 0 with status := Status.processing, locked_by := some "w0", locked_at := some 0 }] := by
  refine ⟨?_, ?_, ?_, ?_⟩ <;>
    simp [specClaimEligible, claimFilter, lockExpired, lockTimeout, mkTask,
      get_and_lock_task, selectMin]

/-- C1 amended: a claim attempt selects the lowest-`priority`,
oldest-`scheduled_at` task that is `pending` with an absent or
stale-beyond-timeout soft lock, and atomically transitions it to
`processing` with `locked_by`, `locked_at` and `started_at` set to the
claiming worker and the current time; when no such task exists, nothing
is claimed and the store is untouched.  Tasks in `processing` are never
selected by a claim. -/
theorem claim1_claim_selection (db : List Task) (w : String) (now : Int) :
    ((get_and_lock_task db w now).1 = none →
      (get_and_lock_task db w now).2 = db ∧
      ∀ t ∈ db, claimFilter now t = false) ∧
    (∀ t', (get_and_lock_task db w now).1 = some t' →
      ∃ t ∈ db, claimFilter now t = true ∧
        t.status = Status.pending ∧
        (∀ u ∈ db, claimFilter now u = true → claimBefore u t = false) ∧
        t' = lockTask t w now ∧
        t'.status = Status.processing ∧
        t'.locked_by = some w ∧
        t'.locked_at = some now ∧
        t'.started_at = some now ∧
        (get_and_lock_task db w now).2 =
          db.map (fun u => if u.task_id = t.task_id then t' else u)) := by
  constructor
  · intro h
    unfold get_and_lock_task at h ⊢
    cases hs : selectMin (db.filter (claimFilter now)) with
    | none =>
      have hnil : db.filter (claimFilter now) = [] :=
        selectMin_eq_none.mp hs
      refine ⟨by simp [hs], ?_⟩
      intro t ht
      by_contra hc
      have : t ∈ db.filter (claimFilter now) :=
        List.mem_filter.mpr ⟨ht, by simpa using hc⟩
      simp [hnil] at this
    | some b =>
      rw [hs] at h
      simp at h
  · intro t' h
    unfold get_and_lock_task at h ⊢
    cases hs : selectMin (db.filter (claimFilter now)) with
    | none =>
      rw [hs] at h
      simp at h
    | some b =>
      rw [hs] at h
      simp at h
      have hbmem : b ∈ db.filter (claimFilter now) := selectMin_mem hs
      have hb : b ∈ db ∧ claimFilter now b = true := by
        have := List.mem_filter.mp hbmem
        exact ⟨this.1, this.2⟩
      refine ⟨b, hb.1, hb.2, ?_, ?_, h.symm, ?_, ?_, ?_, ?_, ?_⟩
      · have := hb.2
        simp only [claimFilter, Bool.and_eq_true, decide_eq_true_eq] at this
        exact this.1
      · intro u hu hcf
        exact selectMin_min hs u (List.mem_filter.mpr ⟨hu, hcf⟩)
      · rw [← h]; rfl
      · rw [← h]; rfl
      · rw [← h]; rfl
      · rw [← h]; rfl
      · rw [← h]

/-- Witness for the amended C1: in a two-task store the pending task with
the smaller priority is claimed, locked and stamped. -/
theorem claim1_claim_selection_witness :
    ∃ t ∈ [mkTask "a" "x" [] 5 2 none 0, mkTask "b" "y" [] 1 2 none 3],
      claimFilter 50 t = true ∧
        t.status = Status.pending ∧
        (∀ u ∈ [mkTask "a" "x" [] 5 2 none 0, mkTask "b" "y" [] 1 2 none 3],
          claimFilter 50 u = true → claimBefore u t = false) ∧
        lockTask (mkTask "b" "y" [] 1 2 none 3) "w1" 50 = lockTask t "w1" 50 ∧
        (lockTask (mkTask "b" "y" [] 1 2 none 3) "w1" 50).status =
          Status.processing ∧
        (lockTask (mkTask "b" "y" [] 1 2 none 3) "w1" 50).locked_by =
          some "w1" ∧
        (lockTask (mkTask "b" "y" [] 1 2 none 3) "w1" 50).locked_at =
          some 50 ∧
        (lockTask (mkTask "b" "y" [] 1 2 none 3) "w1" 50).started_at =
          some 50 ∧
        (get_and_lock_task
            [mkTask "a" "x" [] 5 2 none 0, mkTask "b" "y" [] 1 2 none 3]
            "w1" 50).2 =
          [mkTask "a" "x" [] 5 2 none 0,
            mkTask "b" "y" [] 1 2 none 3].map
            (fun u => if u.task_id = t.task_id
              then lockTask (mkTask "b" "y" [] 1 2 none 3) "w1" 50 else u) :=
  (claim1_claim_selection
    [mkTask "a" "x" [] 5 2 none 0, mkTask "b" "y" [] 1 2 none 3]
    "w1" 50).2 (lockTask (mkTask "b" "y" [] 1 2 none 3) "w1" 50)
    (by decide)

/-! ## Theorems about the smart paginator -/

/-- A stable 25-row data set whose rows carry ids 0..24. -/
def pageDataset : List Item :=
  (List.range 25).map (fun i => { id := some i, tag := "" })

/-- The caller-supplied query function over `pageDataset`: a plain
offset/limit slice, never failing. -/
def pageQueryFn : QueryFn :=
  fun off lim _ => Except.ok ((pageDataset.drop off).take lim)

def pageCall1 : (List Item × Metadata) × List PaginationState :=
  get_next_page [] "s1" "ep" pageQueryFn [] (some 10) 0

def pageCall2 : (List Item × Metadata) × List PaginationState :=
  get_next_page pageCall1.2 "s1" "ep" pageQueryFn [] (some 10) 1

def pageCall3 : (List Item × Metadata) × List PaginationState :=
  get_next_page pageCall2.2 "s1" "ep" pageQueryFn [] (some 10) 2

/-- C7: over a stable 25-row data set with `page_size = 10`, three
successive `get_next_page` calls with the same session, endpoint and
query parameters return 10, 10 and 5 items; `has_more_pages` is true on
the first two calls and false only on the third, and on each call it
equals `items_in_page == items_per_page`. -/
theorem claim7_pagination_continuity :
    pageCall1.1.1.length = 10 ∧ pageCall2.1.1.length = 10 ∧
    pageCall3.1.1.length = 5 ∧
    pageCall1.1.2.items_in_page = 10 ∧ pageCall2.1.2.items_in_page = 10 ∧
    pageCall3.1.2.items_in_page = 5 ∧
    pageCall1.1.2.has_more_pages = true ∧
    pageCall2.1.2.has_more_pages = true ∧
    pageCall3.1.2.has_more_pages = false ∧
    pageCall1.1.2.has_more_pages =
      decide (pageCall1.1.2.items_in_page = pageCall1.1.2.items_per_page) ∧
    pageCall2.1.2.has_more_pages =
      decide (pageCall2.1.2.items_in_page = pageCall2.1.2.items_per_page) ∧
    pageCall3.1.2.has_more_pages =
      decide (pageCall3.1.2.items_in_page = pageCall3.1.2.items_per_page) := by
  decide

/-- C8: `get_next_page` never propagates an internal error.  When the
paginated path fails, the failure is the caller's fetch at the stored
offset failing; the function then performs the single unpaginated
fallback fetch at `offset = 0` with `limit = page_size or 20` and returns
its rows with degraded metadata, and when even the fallback fetch fails
it returns an empty list with error metadata — in every case a plain
value, never an exception. -/
theorem claim8_graceful_fallback (db : List PaginationState)
    (sid ep : String) (queryFn : QueryFn) (params : Params)
    (pageSize : Option Nat) (now : Int) (e : String)
    (hcore : get_next_page_core db sid ep queryFn params pageSize now =
      Except.error e) :
    queryFn
        (get_or_create_session db sid ep params pageSize
          now).1.returned_items.length
        (get_or_create_session db sid ep params pageSize
          now).1.items_per_page params = Except.error e ∧
    (∀ rs, queryFn 0 (fallbackLimit pageSize) params = Except.ok rs →
      get_next_page db sid ep queryFn params pageSize now =
        ((rs, fallbackMetadata sid rs),
          (get_or_create_session db sid ep params pageSize now).2)) ∧
    (∀ e', queryFn 0 (fallbackLimit pageSize) params = Except.error e' →
      get_next_page db sid ep queryFn params pageSize now =
        (([], criticalMetadata sid e),
          (get_or_create_session db sid ep params pageSize now).2)) := by
  refine ⟨?_, ?_, ?_⟩
  · simp only [get_next_page_core] at hcore
    cases hq : queryFn
        (get_or_create_session db sid ep params pageSize
          now).1.returned_items.length
        (get_or_create_session db sid ep params pageSize
          now).1.items_per_page params with
    | error e'' =>
      rw [hq] at hcore
      simp at hcore
      rw [hcore]
    | ok rs =>
      rw [hq] at hcore
      simp at hcore
  · intro rs hq
    simp only [get_next_page, hcore, hq]
  · intro e' hq
    simp only [get_next_page, hcore, hq]

/-- Witness for C8 at two concrete failing query functions: one failing
only on the paginated fetch (fallback succeeds with degraded metadata)
and one failing always (empty list with error metadata). -/
theorem claim8_graceful_fallback_witness :
    (get_next_page [] "s" "ep"
        (fun _ lim _ =>
          if lim = 0 then Except.error "paged" else Except.ok [])
        [] (some 0) 0 =
      (([], fallbackMetadata "s" []),
        (get_or_create_session [] "s" "ep" [] (some 0) 0).2)) ∧
    (get_next_page [] "s" "ep"
        (fun _ _ _ => (Except.error "down" : Except String (List Item)))
        [] (some 10) 0 =
      (([], criticalMetadata "s" "down"),
        (get_or_create_session [] "s" "ep" [] (some 10) 0).2)) :=
  ⟨(claim8_graceful_fallback [] "s" "ep"
      (fun _ lim _ =>
        if lim = 0 then Except.error "paged" else Except.ok [])
      [] (some 0) 0 "paged" rfl).2.1 [] rfl,
   (claim8_graceful_fallback [] "s" "ep"
      (fun _ _ _ => (Except.error "down" : Except String (List Item)))
      [] (some 10) 0 "down" rfl).2.2 "down" rfl⟩

/-- Helper: mapping a function that fixes every element of a list is the
identity. -/
theorem map_fixes {l : List PaginationState}
    {f : PaginationState → PaginationState} (h : ∀ st ∈ l, f st = st) :
    l.map f = l := by
  induction l with
  | nil => rfl
  | cons a l ih => simp_all

/-- Helper: `reset_session` on a table with no matching active session is
a no-op returning false. -/
theorem reset_session_noop {l : List PaginationState} {sid : String}
    {ep : Option String} {now : Int}
    (h : ∀ st ∈ l, resetMatch sid ep st = false) :
    reset_session l sid ep now = (false, l) := by
  simp only [reset_session]
  have hfil : l.filter (resetMatch sid ep) = [] := by
    refine List.filter_eq_nil_iff.mpr ?_
    intro a ha
    simp [h a ha]
  have hmap : l.map (fun st =>
      if resetMatch sid ep st then
        ({ st with is_active := false, last_accessed := now } :
          PaginationState)
      else st) = l :=
    map_fixes (fun a ha => if_neg (by simp [h a ha]))
  rw [hfil, hmap]
  simp

/-- C9: `reset_session` is idempotent.  The first call deletes no rows
and deactivates every matching active session while keeping every other
row unchanged; after it, no session matches any more, so a second call
with the same arguments returns false and leaves the table exactly as
the first call left it. -/
theorem claim9_reset_idempotent (db : List PaginationState) (sid : String)
    (ep : Option String) (now now' : Int) :
    (reset_session db sid ep now).2.length = db.length ∧
    (∀ st ∈ db, resetMatch sid ep st = true →
      ({ st with is_active := false, last_accessed := now } :
        PaginationState) ∈ (reset_session db sid ep now).2) ∧
    (∀ st ∈ db, resetMatch sid ep st = false →
      st ∈ (reset_session db sid ep now).2) ∧
    (∀ st ∈ (reset_session db sid ep now).2,
      resetMatch sid ep st = false) ∧
    (reset_session (reset_session db sid ep now).2 sid ep now').1 =
      false ∧
    (reset_session (reset_session db sid ep now).2 sid ep now').2 =
      (reset_session db sid ep now).2 := by
  have hall : ∀ st ∈ (reset_session db sid ep now).2,
      resetMatch sid ep st = false := by
    intro st hst
    simp only [reset_session, List.mem_map] at hst
    obtain ⟨st0, hst0, hf⟩ := hst
    by_cases hm : resetMatch sid ep st0 = true
    · rw [if_pos hm] at hf
      subst hf
      simp [resetMatch]
    · rw [if_neg hm] at hf
      subst hf
      simpa using hm
  have hno : reset_session (reset_session db sid ep now).2 sid ep now' =
      (false, (reset_session db sid ep now).2) :=
    reset_session_noop hall
  refine ⟨by simp [reset_session], ?_, ?_, hall, by rw [hno],
    by rw [hno]⟩
  · intro st hst hm
    simp only [reset_session, List.mem_map]
    exact ⟨st, hst, by rw [if_pos hm]⟩
  · intro st hst hm
    simp only [reset_session, List.mem_map]
    exact ⟨st, hst, by rw [if_neg (by simp [hm])]⟩

/-- Witness for C9 at a one-session table whose session matches the
reset. -/
theorem claim9_reset_idempotent_witness :
    (reset_session [newState "s1" "ep" ("ep", []) [] 10 0] "s1" none
        5).2.length = 1 ∧
    ({ newState "s1" "ep" ("ep", []) [] 10 0 with is_active := false, last_accessed := (5 : Int) } : PaginationState) ∈
      (reset_session [newState "s1" "ep" ("ep", []) [] 10 0] "s1" none
        5).2 ∧
    (∀ st ∈ (reset_session [newState "s1" "ep" ("ep", []) [] 10 0] "s1"
        none 5).2, resetMatch "s1" none st = false) ∧
    (reset_session
        (reset_session [newState "s1" "ep" ("ep", []) [] 10 0] "s1" none
          5).2 "s1" none 6).1 = false ∧
    (reset_session
        (reset_session [newState "s1" "ep" ("ep", []) [] 10 0] "s1" none
          5).2 "s1" none 6).2 =
      (reset_session [newState "s1" "ep" ("ep", []) [] 10 0] "s1" none
        5).2 := by
  have h := claim9_reset_idempotent
    [newState "s1" "ep" ("ep", []) [] 10 0] "s1" none 5 6
  exact ⟨h.1, h.2.1 (newState "s1" "ep" ("ep", []) [] 10 0) (by decide)
      (by decide),
    h.2.2.2.1, h.2.2.2.2.1, h.2.2.2.2.2⟩

/-- Helper: replacing the head of a table by a new row. -/
theorem replaceFirst_cons_self (a b : PaginationState)
    (l : List PaginationState) :
    replaceFirst (a :: l) a b = b :: l := by
  simp [replaceFirst]

/-- C10: on a successful paginated fetch the session's returned-ids list
is extended exactly with the ids of the returned items that expose one,
and the offset bookkeeping (`total_items_returned`, which is the length
of that list and the offset of the next call) follows it; consequently,
when the fetched items expose no ids, the committed session keeps its
returned-ids list unchanged — the offset never advances, the session
still matches the same `(session_id, endpoint, query_hash)` lookup with
the same page size and expiry, and every subsequent call re-fetches the
same first page. -/
theorem claim10_id_extraction :
    (∀ (db : List PaginationState) (sid ep : String) (queryFn : QueryFn)
        (params : Params) (pageSize : Option Nat) (now : Int)
        (rs : List Item),
      queryFn (get_or_create_session db sid ep params pageSize
            now).1.returned_items.length
          (get_or_create_session db sid ep params pageSize
            now).1.items_per_page params = Except.ok rs →
      (get_next_page db sid ep queryFn params pageSize now).1.1 = rs ∧
      ∃ st2 : PaginationState,
        (get_next_page db sid ep queryFn params pageSize now).2 =
          replaceFirst
            (get_or_create_session db sid ep params pageSize now).2
            (get_or_create_session db sid ep params pageSize now).1 st2 ∧
        st2.returned_items =
          (get_or_create_session db sid ep params pageSize
            now).1.returned_items ++ extractIds rs ∧
        (get_next_page db sid ep queryFn params pageSize
            now).1.2.total_items_returned = st2.returned_items.length) ∧
    (∀ (st : PaginationState) (sid ep : String) (queryFn : QueryFn)
        (params : Params) (pageSize : Option Nat) (now : Int)
        (rs : List Item),
      sessionMatch sid ep (generate_query_hash ep params) st = true →
      st.is_expired now = false →
      queryFn st.returned_items.length st.items_per_page params =
        Except.ok rs →
      (∀ it ∈ rs, it.id = none) →
      (get_next_page [st] sid ep queryFn params pageSize now).1.1 = rs ∧
      ∃ st2 : PaginationState,
        (get_next_page [st] sid ep queryFn params pageSize now).2 =
          [st2] ∧
        st2.returned_items = st.returned_items ∧
        st2.items_per_page = st.items_per_page ∧
        st2.expires_at = st.expires_at ∧
        sessionMatch sid ep (generate_query_hash ep params) st2 =
          true) := by
  constructor
  · intro db sid ep queryFn params pageSize now rs hq
    simp only [get_next_page, get_next_page_core, hq]
    refine ⟨trivial, _, rfl, ?_, ?_⟩
    · split <;> rfl
    · split <;> rfl
  · intro st sid ep queryFn params pageSize now rs hmatch hexp hq hid
    have hext : extractIds rs = [] :=
      List.filterMap_eq_nil_iff.mpr hid
    have hgoc : get_or_create_session [st] sid ep params pageSize now =
        ({ st with last_accessed := now },
          [{ st with last_accessed := now }]) := by
      simp only [get_or_create_session, List.find?_cons_of_pos _ hmatch]
      rw [if_neg (by simp [hexp])]
      simp [replaceFirst]
    simp only [get_next_page, get_next_page_core, hgoc, hq,
      replaceFirst_cons_self]
    refine ⟨trivial, _, rfl, ?_, ?_, ?_, ?_⟩
    · split <;> simp [hext]
    · split <;> rfl
    · split <;> rfl
    · simp only [sessionMatch, Bool.and_eq_true, decide_eq_true_eq] at hmatch
      simp only [sessionMatch, Bool.and_eq_true, decide_eq_true_eq]
      split <;> simp_all

/-- Witness for C10: a three-row data set whose rows expose no ids; the
call returns the rows, the committed session keeps an empty returned-ids
list, and the stored offset stays 0. -/
theorem claim10_id_extraction_witness :
    ((get_next_page [] "s" "ep"
        (fun off lim _ =>
          Except.ok ((([{ id := none, tag := "a" },
            { id := none, tag := "b" },
            { id := none, tag := "c" }] : List Item).drop off).take lim))
        [] (some 10) 0).1.1 =
      [{ id := none, tag := "a" }, { id := none, tag := "b" },
        { id := none, tag := "c" }] ∧
      ∃ st2 : PaginationState,
        (get_next_page [] "s" "ep"
          (fun off lim _ =>
            Except.ok ((([{ id := none, tag := "a" },
              { id := none, tag := "b" },
              { id := none, tag := "c" }] : List Item).drop off).take lim))
          [] (some 10) 0).2 =
          replaceFirst
            (get_or_create_session [] "s" "ep" [] (some 10) 0).2
            (get_or_create_session [] "s" "ep" [] (some 10) 0).1 st2 ∧
        st2.returned_items =
          (get_or_create_session [] "s" "ep" [] (some 10)
            0).1.returned_items ++
            extractIds [{ id := none, tag := "a" },
              { id := none, tag := "b" }, { id := none, tag := "c" }] ∧
        (get_next_page [] "s" "ep"
          (fun off lim _ =>
            Except.ok ((([{ id := none, tag := "a" },
              { id := none, tag := "b" },
              { id := none, tag := "c" }] : List Item).drop off).take lim))
          [] (some 10) 0).1.2.total_items_returned =
          st2.returned_items.length) ∧
    ((get_next_page [newState "s" "ep" (generate_query_hash "ep" []) []
        10 0] "s" "ep"
        (fun off lim _ =>
          Except.ok ((([{ id := none, tag := "a" },
            { id := none, tag := "b" },
            { id := none, tag := "c" }] : List Item).drop off).take lim))
        [] (some 10) 0).1.1 =
      [{ id := none, tag := "a" }, { id := none, tag := "b" },
        { id := none, tag := "c" }] ∧
      ∃ st2 : PaginationState,
        (get_next_page [newState "s" "ep" (generate_query_hash "ep" [])
          [] 10 0] "s" "ep"
          (fun off lim _ =>
            Except.ok ((([{ id := none, tag := "a" },
              { id := none, tag := "b" },
              { id := none, tag := "c" }] : List Item).drop off).take lim))
          [] (some 10) 0).2 = [st2] ∧
        st2.returned_items =
          (newState "s" "ep" (generate_query_hash "ep" []) [] 10
            0).returned_items ∧
        st2.items_per_page =
          (newState "s" "ep" (generate_query_hash "ep" []) [] 10
            0).items_per_page ∧
        st2.expires_at =
          (newState "s" "ep" (generate_query_hash "ep" []) [] 10
            0).expires_at ∧
        sessionMatch "s" "ep" (generate_query_hash "ep" []) st2 =
          true) :=
  ⟨claim10_id_extraction.1 [] "s" "ep"
      (fun off lim _ =>
        Except.ok ((([{ id := none, tag := "a" },
          { id := none, tag := "b" },
          { id := none, tag := "c" }] : List Item).drop off).take lim))
      [] (some 10) 0
      [{ id := none, tag := "a" }, { id := none, tag := "b" },
        { id := none, tag := "c" }] rfl,
    claim10_id_extraction.2
      (newState "s" "ep" (generate_query_hash "ep" []) [] 10 0) "s" "ep"
      (fun off lim _ =>
        Except.ok ((([{ id := none, tag := "a" },
          { id := none, tag := "b" },
          { id := none, tag := "c" }] : List Item).drop off).take lim))
      [] (some 10) 0
      [{ id := none, tag := "a" }, { id := none, tag := "b" },
        { id := none, tag := "c" }] (by decide) (by decide) rfl
      (by decide)⟩

end Async
